import Mathlib

/-
Verification of the outreach-sync-service event pipeline.

Shallow embedding of:
  sync_svc/shared/httpclient.py      (HttpClient: classified retry with backoff)
  internal_service/core/events/builders.py (build_customer_event)
  internal_service/core/kafka/publisher.py (publish)
  sync_svc/consumer.py               (EventConsumer.start, handle_event)

Python exceptions are modelled by the inductive type PyExc; its constructors
stand for the subclasses of Exception that the code can see
(requests.exceptions classes, confluent_kafka.KafkaException, json/type
errors).  KeyboardInterrupt, which derives from BaseException and is handled
only in the consumer loop, is modelled separately there.
-/

namespace OutreachSync

/-- Model of the Python exceptions flowing through the service.  The first
five constructors mirror the requests exception hierarchy as the isinstance
chain in HttpClient._is_retryable_error distinguishes it: each constructor is
the most specific class matched there.  httpError carries the status code of
the attached response, or none when error.response is None. -/
inductive PyExc where
  | connectionError : PyExc
  | timeout : PyExc
  | tooManyRedirects : PyExc
  | httpError (status : Option Nat) : PyExc
  | requestException : PyExc
  | kafkaError : PyExc
  | typeError : PyExc
  | valueError : PyExc
  | otherError : PyExc
deriving Repr, DecidableEq

/-- Configuration of HttpClient (sync_svc/shared/httpclient.py, __init__).
Only the fields the verified behaviour can touch are kept; note that jitter
is stored on the client exactly as in the source. -/
structure HttpClient where
  timeout : Nat := 30
  max_retries : Nat := 3
  jitter : Bool := true
deriving Repr, DecidableEq

/-- HttpClient._is_retryable_error, clause for clause. -/
def HttpClient.is_retryable_error (_c : HttpClient) (e : PyExc) : Bool :=
  match e with
  | .connectionError => true
  | .timeout => true
  | .tooManyRedirects => true
  | .httpError none => true
  | .httpError (some status_code) =>
      if 500 ≤ status_code || status_code == 429 then true else false
  | .requestException => true
  | _ => false

/-- HttpClient._calculate_backoff: 2 ^ min (attempt + 1) 5 seconds. -/
def HttpClient.calculate_backoff (_c : HttpClient) (attempt : Nat) : Nat :=
  2 ^ min (attempt + 1) 5

/-- Result of one call to _execute_with_retry: either the value returned from
inside the for loop, an exception raised to the caller, or the implicit
return None after the loop (reachable in Python only if the range is empty,
which max_retries + 1 ≥ 1 rules out). -/
inductive CallOutcome (α : Type) where
  | success (r : α) : CallOutcome α
  | raised (e : PyExc) : CallOutcome α
  | noReturn : CallOutcome α
deriving Repr, DecidableEq

/-- Observable trace of one _execute_with_retry call: how many attempts were
performed, the backoff sleeps in order, and the final outcome. -/
structure RetryTrace (α : Type) where
  attempts : Nat
  sleeps : List Nat
  outcome : CallOutcome α
deriving Repr, DecidableEq

/-- The for loop of HttpClient._execute_with_retry.  The i-th attempt of the
call is abstracted by the oracle att i : Except PyExc α (the body of the try
block either returns a response dict or raises).  fuel counts the iterations
range(max_retries + 1) still to run; last_error mirrors the Python variable. -/
def HttpClient.retryLoop {α : Type} (c : HttpClient) (att : Nat → Except PyExc α)
    (attempt : Nat) (last_error : Option PyExc) (fuel : Nat) : RetryTrace α :=
  match fuel with
  | 0 =>
      match last_error with
      | some e => ⟨0, [], .raised e⟩
      | none => ⟨0, [], .noReturn⟩
  | fuel' + 1 =>
      match att attempt with
      | .ok r => ⟨1, [], .success r⟩
      | .error e =>
          if c.is_retryable_error e = false ∨ c.max_retries ≤ attempt then
            ⟨1, [], .raised e⟩
          else
            let rest := c.retryLoop att (attempt + 1) (some e) fuel'
            if attempt < c.max_retries then
              ⟨rest.attempts + 1, c.calculate_backoff attempt :: rest.sleeps, rest.outcome⟩
            else
              ⟨rest.attempts + 1, rest.sleeps, rest.outcome⟩

/-- HttpClient._execute_with_retry: run the loop from attempt 0 with
max_retries + 1 iterations available and no last error. -/
def HttpClient.execute_with_retry {α : Type} (c : HttpClient)
    (att : Nat → Except PyExc α) : RetryTrace α :=
  c.retryLoop att 0 none (c.max_retries + 1)

/-! Event builder (internal_service/core/events/builders.py). -/

/-- The fixed namespace for idempotency keys (builders.py). -/
def IDEMPOTENCY_NAMESPACE : String := "a1b2c3d4-e5f6-7890-abcd-ef1234567890"

/-- Model of Python uuid.uuid5(namespace, name): a deterministic, name-based
UUID.  We model it as an injective pairing of namespace and name — the
standard collision-freedom assumption for name-based UUIDs. -/
def uuid5 (ns name : String) : String :=
  ns ++ "|" ++ name

/-- Model of datetime.astimezone(timezone.utc).isoformat(): an opaque
deterministic rendering of the timestamp. -/
def isoUTC (t : Int) : String := toString t

/-- A snapshot of the customer object as build_customer_event reads it:
each field is an attribute that may be absent (absence raises AttributeError
in Python).  On a full Django Customer instance every field is present. -/
structure CustomerSnapshot where
  id : Option String
  updated_at : Option Int
  name : Option String
  email : Option String
  status : Option String
deriving Repr, DecidableEq

/-- The event envelope dict returned by build_customer_event, flattened. -/
structure Envelope where
  event_id : String
  idempotency_key : String
  event_type : String
  occurred_at : String
  source : String
  entity_type : String
  entity_id : String
  payload_name : String
  payload_email : String
  payload_status : String
  schema_version : Nat
deriving Repr, DecidableEq

/-- AttributeError raised when the snapshot lacks the named attribute. -/
inductive BuildError where
  | attributeError (attr : String) : BuildError
deriving Repr, DecidableEq

/-- build_customer_event (builders.py).  fresh_event_id stands for the
str(uuid.uuid4()) drawn for this emission.  Attributes are read in source
order: customer.id (for the idempotency name), then the dict literal reads
customer.updated_at, customer.id again, customer.name, customer.email,
customer.status; a missing attribute raises at its first read. -/
def build_customer_event (fresh_event_id : String) (event_type : String)
    (customer : CustomerSnapshot) : Except BuildError Envelope :=
  match customer.id with
  | none => .error (.attributeError "id")
  | some cid =>
      let idempotency_name := event_type ++ ":customer:" ++ cid
      let idempotency_key := uuid5 IDEMPOTENCY_NAMESPACE idempotency_name
      match customer.updated_at with
      | none => .error (.attributeError "updated_at")
      | some ts =>
          match customer.name with
          | none => .error (.attributeError "name")
          | some nm =>
              match customer.email with
              | none => .error (.attributeError "email")
              | some em =>
                  match customer.status with
                  | none => .error (.attributeError "status")
                  | some st =>
                      .ok { event_id := fresh_event_id
                          , idempotency_key := idempotency_key
                          , event_type := event_type
                          , occurred_at := isoUTC ts
                          , source := "internal-system"
                          , entity_type := "customer"
                          , entity_id := cid
                          , payload_name := nm
                          , payload_email := em
                          , payload_status := st
                          , schema_version := 1 }

/-! Publisher (internal_service/core/kafka/publisher.py). -/

/-- A message dict as the publisher and the sync handler see it: the two keys
they read, plus the rest of the dict kept opaque so that equality of
EventDict values means the dict is passed on unmodified. -/
structure EventDict where
  event_id : Option String := none
  event_type : Option String := none
  rest : String := ""
deriving Repr, DecidableEq

/-- Outcomes of the fallible steps inside the try block of publish: lazy
producer construction, json.dumps serialization, producer.produce enqueue and
producer.poll.  Each raises a subclass of Exception or succeeds. -/
structure PublishEnv where
  producerInit : Except PyExc Unit
  serialize : Except PyExc Unit
  produceStep : Except PyExc Unit
  pollStep : Except PyExc Unit

/-- What one publish call did: the messages it actually enqueued (at most
one; empty when a step before produce failed) and what reaches the caller
(always Except.ok (): the except KafkaException and except Exception clauses
swallow every failure and only log it). -/
def publish (env : PublishEnv) (topic : String) (key : String)
    (message : EventDict) : List (String × String × EventDict) × Except PyExc Unit :=
  match env.producerInit with
  | .error _ => ([], .ok ())
  | .ok _ =>
      match env.serialize with
      | .error _ => ([], .ok ())
      | .ok _ =>
          match env.produceStep with
          | .error _ => ([], .ok ())
          | .ok _ =>
              match env.pollStep with
              | .error _ => ([(topic, key, message)], .ok ())
              | .ok _ => ([(topic, key, message)], .ok ())

/-! Consumer (sync_svc/consumer.py). -/

/-- What one consumer.poll(1.0) call yields: None on timeout, a
broker-reported error, or a raw message value. -/
inductive PollStep where
  | noMessage : PollStep
  | pollError : PollStep
  | message (raw : String) : PollStep
deriving Repr, DecidableEq

/-- Outcome of one handler invocation.  interrupt stands for
KeyboardInterrupt, which derives from BaseException, not Exception, and is
the only exception the loop in EventConsumer.start catches. -/
inductive HandlerRes where
  | ok : HandlerRes
  | raised (e : PyExc) : HandlerRes
  | interrupt : HandlerRes
deriving Repr, DecidableEq

/-- How an observation of the poll loop ends. -/
inductive LoopResult where
  | stillPolling : LoopResult
  | stopped : LoopResult
  | crashed (e : PyExc) : LoopResult
deriving Repr, DecidableEq

/-- The while True loop of EventConsumer.start, observed for fuel
iterations.  poll i is what the i-th poll returns, decode models
json.loads on the message value, handler is self.handler.  The surrounding
try swallows only KeyboardInterrupt (then the finally clause closes the
consumer and the function returns); any other exception escapes after the
finally clause, terminating consumption. -/
def consumerLoop (poll : Nat → PollStep) (decode : String → Except PyExc EventDict)
    (handler : EventDict → HandlerRes) : Nat → Nat → LoopResult
  | _, 0 => .stillPolling
  | i, fuel + 1 =>
      match poll i with
      | .noMessage => consumerLoop poll decode handler (i + 1) fuel
      | .pollError => .crashed .kafkaError
      | .message raw =>
          match decode raw with
          | .error e => .crashed e
          | .ok ev =>
              match handler ev with
              | .ok => consumerLoop poll decode handler (i + 1) fuel
              | .raised e => .crashed e
              | .interrupt => .stopped

/-- What one handle_event call did: the publish calls it issued (topic, key,
message), the messages actually enqueued, and what reaches the caller. -/
structure HandleTrace where
  publishCalls : List (String × String × EventDict)
  enqueued : List (String × String × EventDict)
  result : Except PyExc Unit
deriving Repr

/-- handle_event (sync_svc/consumer.py).  process abstracts the outcome of
process_event(event) — a response dict or a raised exception.  On failure the
original event is sent to the dead-letter topic keyed by
event.get(event_id, empty string); the inner try swallows any failure of
that publish call. -/
def handle_event {α : Type} (env : PublishEnv) (process : Except PyExc α)
    (event : EventDict) : HandleTrace :=
  match process with
  | .ok _ => ⟨[], [], .ok ()⟩
  | .error _ =>
      let key := event.event_id.getD ""
      let r := publish env "internal.customer.events.dlq" key event
      match r.2 with
      | .ok _ => ⟨[("internal.customer.events.dlq", key, event)], r.1, .ok ()⟩
      | .error _ => ⟨[("internal.customer.events.dlq", key, event)], r.1, .ok ()⟩

/-! Unfolding lemmas for the retry loop. -/

theorem retryLoop_att_ok {α : Type} (c : HttpClient) (att : Nat → Except PyExc α)
    (a : Nat) (le : Option PyExc) (fuel : Nat) (r : α) (h : att a = .ok r) :
    c.retryLoop att a le (fuel + 1) = ⟨1, [], .success r⟩ := by
  simp [HttpClient.retryLoop, h]

theorem retryLoop_att_raise {α : Type} (c : HttpClient) (att : Nat → Except PyExc α)
    (a : Nat) (le : Option PyExc) (fuel : Nat) (e : PyExc) (h : att a = .error e)
    (hc : c.is_retryable_error e = false ∨ c.max_retries ≤ a) :
    c.retryLoop att a le (fuel + 1) = ⟨1, [], .raised e⟩ := by
  simp only [HttpClient.retryLoop, h]
  rw [if_pos hc]

theorem retryLoop_att_retry {α : Type} (c : HttpClient) (att : Nat → Except PyExc α)
    (a : Nat) (le : Option PyExc) (fuel : Nat) (e : PyExc) (h : att a = .error e)
    (hre : c.is_retryable_error e = true) (ha : a < c.max_retries) :
    c.retryLoop att a le (fuel + 1)
      = ⟨(c.retryLoop att (a + 1) (some e) fuel).attempts + 1,
         c.calculate_backoff a :: (c.retryLoop att (a + 1) (some e) fuel).sleeps,
         (c.retryLoop att (a + 1) (some e) fuel).outcome⟩ := by
  simp only [HttpClient.retryLoop, h]
  rw [if_neg (by simp [hre]; omega), if_pos ha]

/-- All attempts raise retryable errors: the loop runs out of iterations and
re-raises the error of the final attempt, attempt number max_retries. -/
theorem retryLoop_exhaust {α : Type} (c : HttpClient) (att : Nat → Except PyExc α)
    (e : Nat → PyExc) (hatt : ∀ i, att i = .error (e i))
    (hre : ∀ i, c.is_retryable_error (e i) = true) :
    ∀ (fuel a : Nat) (le : Option PyExc), a + fuel = c.max_retries + 1 → 0 < fuel →
      c.retryLoop att a le fuel
        = ⟨fuel, (List.range' a (fuel - 1)).map c.calculate_backoff,
           .raised (e c.max_retries)⟩ := by
  intro fuel
  induction fuel with
  | zero => intro a le _ hpos; omega
  | succ fuel' ih =>
      intro a le hsum _
      cases fuel' with
      | zero =>
          have ha : a = c.max_retries := by omega
          subst ha
          rw [retryLoop_att_raise c att _ le _ _ (hatt _) (Or.inr le_rfl)]
          simp
      | succ f =>
          have ha : a < c.max_retries := by omega
          rw [retryLoop_att_retry c att a le _ _ (hatt a) (hre a) ha]
          rw [ih (a + 1) (some (e a)) (by omega) (by omega)]
          simp [List.range'_succ]

/-- k attempts raise retryable errors and attempt k succeeds, with
k within the retry budget: the loop returns the success after k + 1 attempts,
sleeping backoff(i) after each failed attempt i. -/
theorem retryLoop_success {α : Type} (c : HttpClient) (att : Nat → Except PyExc α)
    (r : α) :
    ∀ (j a fuel : Nat) (le : Option PyExc),
      (∀ i, i < j → ∃ e, att (a + i) = .error e ∧ c.is_retryable_error e = true) →
      att (a + j) = .ok r →
      a + j ≤ c.max_retries →
      j < fuel →
      c.retryLoop att a le fuel
        = ⟨j + 1, (List.range' a j).map c.calculate_backoff, .success r⟩ := by
  intro j
  induction j with
  | zero =>
      intro a fuel le _ hok _ hfuel
      cases fuel with
      | zero => omega
      | succ fuel' =>
          rw [retryLoop_att_ok c att a le fuel' r (by simpa using hok)]
          simp
  | succ j ih =>
      intro a fuel le hfail hok hle hfuel
      cases fuel with
      | zero => omega
      | succ fuel' =>
          obtain ⟨e, he, hre⟩ := hfail 0 (Nat.succ_pos j)
          have he' : att a = .error e := by simpa using he
          rw [retryLoop_att_retry c att a le fuel' e he' hre (by omega)]
          rw [ih (a + 1) fuel' (some e)
                (fun i hi => by
                  have h := hfail (i + 1) (by omega)
                  rwa [show a + (i + 1) = a + 1 + i by omega] at h)
                (by rwa [show a + 1 + j = a + (j + 1) by omega])
                (by omega) (by omega)]
          simp [List.range'_succ]

/-! Helper facts about publish and handle_event, shared by several claims. -/

theorem publish_snd_ok (env : PublishEnv) (topic key : String) (message : EventDict) :
    (publish env topic key message).2 = Except.ok () := by
  rcases env with ⟨pi, se, pr, po⟩
  cases pi <;> cases se <;> cases pr <;> cases po <;> simp [publish]

theorem publish_fst_cases (env : PublishEnv) (topic key : String) (message : EventDict) :
    (publish env topic key message).1 = []
      ∨ (publish env topic key message).1 = [(topic, key, message)] := by
  rcases env with ⟨pi, se, pr, po⟩
  cases pi <;> cases se <;> cases pr <;> cases po <;> simp [publish]

theorem handle_event_result_ok {α : Type} (env : PublishEnv)
    (process : Except PyExc α) (event : EventDict) :
    (handle_event env process event).result = Except.ok () := by
  cases process with
  | ok r => rfl
  | error e =>
      simp only [handle_event]
      cases h : (publish env "internal.customer.events.dlq" (event.event_id.getD "") event).2 <;>
        simp [h]

/-! Helper lemmas for the idempotency-key claim: the name string
event_type ++ ":customer:" ++ id determines event_type and id as long as
the id contains no colon (entity ids are str(uuid) values: hex digits and
hyphens only). -/

theorem append_cons_inj_of_not_mem {c : Char} :
    ∀ (a₁ a₂ t₁ t₂ : List Char), c ∉ a₁ → c ∉ a₂ →
      a₁ ++ c :: t₁ = a₂ ++ c :: t₂ → a₁ = a₂ ∧ t₁ = t₂ := by
  intro a₁
  induction a₁ with
  | nil =>
      intro a₂ t₁ t₂ _ h₂ heq
      cases a₂ with
      | nil =>
          simp only [List.nil_append] at heq
          exact ⟨rfl, by injection heq⟩
      | cons x a₂' =>
          simp only [List.nil_append, List.cons_append] at heq
          injection heq with hx _
          exact absurd (hx ▸ List.mem_cons_self x a₂') h₂
  | cons y a₁' ih =>
      intro a₂ t₁ t₂ h₁ h₂ heq
      cases a₂ with
      | nil =>
          simp only [List.cons_append, List.nil_append] at heq
          injection heq with hy _
          exact absurd (hy ▸ List.mem_cons_self y a₁') h₁
      | cons x a₂' =>
          simp only [List.cons_append] at heq
          injection heq with hyx htail
          obtain ⟨ha, ht⟩ := ih a₂' t₁ t₂
            (fun hm => h₁ (List.mem_cons_of_mem y hm))
            (fun hm => h₂ (List.mem_cons_of_mem x hm)) htail
          exact ⟨by rw [hyx, ha], ht⟩

theorem idem_name_inj (et₁ et₂ i₁ i₂ : String)
    (h₁ : (':' : Char) ∉ i₁.data) (h₂ : (':' : Char) ∉ i₂.data)
    (heq : et₁ ++ ":customer:" ++ i₁ = et₂ ++ ":customer:" ++ i₂) :
    et₁ = et₂ ∧ i₁ = i₂ := by
  have hd : (et₁.data ++ (":customer:").data) ++ i₁.data
      = (et₂.data ++ (":customer:").data) ++ i₂.data := by
    have h := congrArg String.data heq
    simpa [String.data_append, List.append_assoc] using h
  have hr : i₁.data.reverse
        ++ (':' :: (("remotsuc:").data ++ et₁.data.reverse))
      = i₂.data.reverse
        ++ (':' :: (("remotsuc:").data ++ et₂.data.reverse)) := by
    have h := congrArg List.reverse hd
    simpa [List.reverse_append, List.append_assoc] using h
  obtain ⟨hi, ht⟩ := append_cons_inj_of_not_mem _ _ _ _
    (by simpa [List.mem_reverse] using h₁)
    (by simpa [List.mem_reverse] using h₂) hr
  refine ⟨?_, String.ext (List.reverse_injective hi)⟩
  exact String.ext (List.reverse_injective (List.append_cancel_left ht))

theorem uuid5_name_inj (ns n₁ n₂ : String) (h : uuid5 ns n₁ = uuid5 ns n₂) :
    n₁ = n₂ := by
  have hd : (ns.data ++ ("|").data) ++ n₁.data
      = (ns.data ++ ("|").data) ++ n₂.data := by
    have h' := congrArg String.data h
    simpa [uuid5, String.data_append, List.append_assoc] using h'
  exact String.ext (List.append_cancel_left hd)

theorem build_ok_fields (fid et : String) (s : CustomerSnapshot) (env : Envelope)
    (h : build_customer_event fid et s = .ok env) :
    ∃ cid, s.id = some cid
      ∧ env.idempotency_key = uuid5 IDEMPOTENCY_NAMESPACE (et ++ ":customer:" ++ cid)
      ∧ env.entity_type = "customer" ∧ env.entity_id = cid := by
  obtain ⟨i, u, n, em, st⟩ := s
  rcases i with _ | cid
  · exact absurd h (by simp [build_customer_event])
  rcases u with _ | ts
  · exact absurd h (by simp [build_customer_event])
  rcases n with _ | nm
  · exact absurd h (by simp [build_customer_event])
  rcases em with _ | emv
  · exact absurd h (by simp [build_customer_event])
  rcases st with _ | stv
  · exact absurd h (by simp [build_customer_event])
  simp only [build_customer_event] at h
  injection h with h2
  subst h2
  exact ⟨cid, rfl, rfl, rfl, rfl⟩

/-! Claims. -/

/-- C2: for every attempt number i, the backoff before the next retry is
2 ^ min (i + 1, 5) seconds — the sequence 2, 4, 8, 16, 32, capped at 32 from
attempt 4 on — and the value is independent of the jitter configuration
flag, which exists on the client but never enters the computation. -/
theorem http_backoff_formula_no_jitter :
    ∀ (c : HttpClient) (i : Nat),
      c.calculate_backoff i = 2 ^ min (i + 1) 5
      ∧ ({ c with jitter := true }).calculate_backoff i
          = ({ c with jitter := false }).calculate_backoff i
      ∧ c.calculate_backoff 0 = 2 ∧ c.calculate_backoff 1 = 4
      ∧ c.calculate_backoff 2 = 8 ∧ c.calculate_backoff 3 = 16
      ∧ c.calculate_backoff 4 = 32
      ∧ c.calculate_backoff (i + 4) = 32 := by
  intro c i
  refine ⟨rfl, rfl, rfl, rfl, rfl, rfl, rfl, ?_⟩
  unfold HttpClient.calculate_backoff
  rw [show min (i + 4 + 1) 5 = 5 by omega]
  rfl

/-- C3: the error classifier marks connection failures, timeouts and
redirect loops retryable; an HTTP error response is retryable exactly when
its status is at least 500 or equals 429, so every other 4xx status is
terminal; any other unclassified transport exception (the RequestException
catch-all) is retryable. -/
theorem http_error_classification :
    ∀ (c : HttpClient),
      c.is_retryable_error .connectionError = true
      ∧ c.is_retryable_error .timeout = true
      ∧ c.is_retryable_error .tooManyRedirects = true
      ∧ (∀ s : Nat, c.is_retryable_error (.httpError (some s))
            = (decide (500 ≤ s) || decide (s = 429)))
      ∧ c.is_retryable_error .requestException = true := by
  intro c
  refine ⟨rfl, rfl, rfl, ?_, rfl⟩
  intro s
  by_cases h5 : 500 ≤ s <;> by_cases h4 : s = 429 <;>
    simp [HttpClient.is_retryable_error, h5, h4]

/-- C4: when the first attempt raises a terminal (non-retryable) error the
client performs exactly one attempt, sleeps never, and raises the error to
the caller immediately. -/
theorem http_terminal_error_single_attempt :
    ∀ {α : Type} (c : HttpClient) (att : Nat → Except PyExc α) (e : PyExc),
      att 0 = .error e → c.is_retryable_error e = false →
      c.execute_with_retry att = ⟨1, [], .raised e⟩ := by
  intro α c att e h0 hterm
  exact retryLoop_att_raise c att 0 none c.max_retries e h0 (Or.inl hterm)

/-- Witness for C4 at a concrete input: an HTTP 404 on the first attempt. -/
theorem http_terminal_error_single_attempt_witness :
    ({ } : HttpClient).execute_with_retry
        (fun _ => (.error (.httpError (some 404)) : Except PyExc Nat))
      = ⟨1, [], .raised (.httpError (some 404))⟩ :=
  http_terminal_error_single_attempt { } _ (.httpError (some 404)) rfl rfl

/-- C6: publish returns None and never raises, whichever of its fallible
steps (producer construction, serialization, enqueue, poll) fails; it
attempts the enqueue at most once, so no retry is performed by this
component. -/
theorem publish_swallows_all_failures :
    ∀ (env : PublishEnv) (topic key : String) (message : EventDict),
      (publish env topic key message).2 = Except.ok ()
      ∧ ((publish env topic key message).1 = []
          ∨ (publish env topic key message).1 = [(topic, key, message)]) :=
  fun env topic key message =>
    ⟨publish_snd_ok env topic key message, publish_fst_cases env topic key message⟩

/-- C7 is refuted by the code: with a handler that raises an ordinary
exception on the first delivered message, the poll loop terminates with that
exception instead of proceeding to the next poll — only KeyboardInterrupt is
caught around the loop. -/
theorem consumer_loop_crashes_on_handler_error :
    consumerLoop (fun _ => .message "m") (fun _ => .ok { })
        (fun _ => .raised .valueError) 0 5
      = .crashed .valueError
    ∧ consumerLoop (fun _ => .message "m") (fun _ => .ok { })
        (fun _ => .ok) 0 5
      = .stillPolling := ⟨rfl, rfl⟩

/-- C10: for every dictionary-shaped event, handle_event returns None and
never raises: a failure of downstream processing is caught, and the
dead-letter publish it then performs is itself non-raising. -/
theorem handle_event_never_raises :
    ∀ (env : PublishEnv) (process : Except PyExc Nat) (event : EventDict),
      (handle_event env process event).result = Except.ok ()
      ∧ (publish env "internal.customer.events.dlq" (event.event_id.getD "")
            event).2 = Except.ok () :=
  fun env process event =>
    ⟨handle_event_result_ok env process event,
     publish_snd_ok env "internal.customer.events.dlq" (event.event_id.getD "") event⟩

/-- C1: with max_retries = 3 and every attempt raising a retryable error,
exactly 4 attempts happen, with backoff(i) slept between attempt i and
attempt i + 1 for i = 0, 1, 2, and the error of the 4th attempt is re-raised
to the caller; in general, k retryable errors followed by a success, with
k ≤ max_retries, give exactly k + 1 attempts with backoff(i) slept after
each failed attempt i. -/
theorem http_retry_attempt_counts :
    (∀ (α : Type) (c : HttpClient) (att : Nat → Except PyExc α) (e : Nat → PyExc),
       c.max_retries = 3 →
       (∀ i, att i = .error (e i)) →
       (∀ i, c.is_retryable_error (e i) = true) →
       c.execute_with_retry att
         = ⟨4, [c.calculate_backoff 0, c.calculate_backoff 1, c.calculate_backoff 2],
            .raised (e 3)⟩)
    ∧ (∀ (α : Type) (c : HttpClient) (att : Nat → Except PyExc α) (r : α) (k : Nat),
       k ≤ c.max_retries →
       (∀ i, i < k → ∃ e, att i = .error e ∧ c.is_retryable_error e = true) →
       att k = .ok r →
       c.execute_with_retry att
         = ⟨k + 1, (List.range k).map c.calculate_backoff, .success r⟩) := by
  constructor
  · intro α c att e hm hatt hre
    have h := retryLoop_exhaust c att e hatt hre (c.max_retries + 1) 0 none
        (by omega) (by omega)
    rw [HttpClient.execute_with_retry, h, hm]
    norm_num [List.range']
  · intro α c att r k hk hfail hok
    have h := retryLoop_success c att r k 0 (c.max_retries + 1) none
        (fun i hi => by simpa using hfail i hi) (by simpa using hok)
        (by omega) (by omega)
    rw [HttpClient.execute_with_retry, h, List.range_eq_range']

/-- Witness for C1 at concrete inputs: persistent connection errors give
4 attempts with sleeps 2, 4, 8 and the 4th error re-raised; two HTTP 503
errors followed by a success give 3 attempts with sleeps 2, 4. -/
theorem http_retry_attempt_counts_witness :
    ({ } : HttpClient).execute_with_retry
        (fun _ => (.error .connectionError : Except PyExc Nat))
      = ⟨4, [2, 4, 8], .raised .connectionError⟩
    ∧ ({ } : HttpClient).execute_with_retry
        (fun i => if i < 2 then (.error (.httpError (some 503)) : Except PyExc Nat)
                  else .ok 7)
      = ⟨3, [2, 4], .success 7⟩ := by
  constructor
  · exact http_retry_attempt_counts.1 Nat { } (fun _ => .error .connectionError)
      (fun _ => .connectionError) rfl (fun _ => rfl) (fun _ => rfl)
  · have h := http_retry_attempt_counts.2 Nat { }
      (fun i => if i < 2 then (.error (.httpError (some 503)) : Except PyExc Nat)
                else .ok 7) 7 2 (by decide)
      (fun i hi => ⟨.httpError (some 503), by simp [hi], rfl⟩) (by simp)
    simpa using h

/-- C8: whenever downstream processing raises, handle_event issues exactly
one publish call, to topic internal.customer.events.dlq, keyed by the
event_id of the envelope, carrying the original envelope unmodified; and
whatever the dead-letter publish environment does, nothing is raised to the
caller — a dead-letter failure is logged and dropped. -/
theorem dlq_publish_on_handler_failure :
    ∀ (env : PublishEnv) (e : PyExc) (event : EventDict) (eid : String),
      event.event_id = some eid →
      (handle_event (α := Nat) env (.error e) event).publishCalls
          = [("internal.customer.events.dlq", eid, event)]
      ∧ (handle_event (α := Nat) env (.error e) event).result = Except.ok () := by
  intro env e event eid hid
  refine ⟨?_, handle_event_result_ok env (.error e) event⟩
  simp only [handle_event, hid, Option.getD_some]
  cases h : (publish env "internal.customer.events.dlq" eid event).2 <;> simp [h]

/-- Witness for C8 at a concrete input: a failed process_event on an
envelope with event_id E1, with a dead-letter broker that refuses the
enqueue. -/
theorem dlq_publish_on_handler_failure_witness :
    (handle_event (α := Nat) ⟨.error .kafkaError, .ok (), .ok (), .ok ()⟩
        (.error .requestException) ⟨some "E1", none, ""⟩).publishCalls
      = [("internal.customer.events.dlq", "E1", ⟨some "E1", none, ""⟩)]
    ∧ (handle_event (α := Nat) ⟨.error .kafkaError, .ok (), .ok (), .ok ()⟩
        (.error .requestException) ⟨some "E1", none, ""⟩).result = Except.ok () :=
  dlq_publish_on_handler_failure ⟨.error .kafkaError, .ok (), .ok (), .ok ()⟩
    .requestException ⟨some "E1", none, ""⟩ "E1" rfl

/-- C9 is refuted by the code: a snapshot that has both required fields
(id and updated-at) but lacks the name attribute still makes the builder
raise, because the payload also reads name, email and status. -/
theorem build_requires_only_id_updated_at_refuted :
    (CustomerSnapshot.mk (some "c1") (some 0) none (some "a@x.com") (some "active")).id
        ≠ none
    ∧ (CustomerSnapshot.mk (some "c1") (some 0) none (some "a@x.com")
          (some "active")).updated_at ≠ none
    ∧ build_customer_event "f1" "record.created"
          (CustomerSnapshot.mk (some "c1") (some 0) none (some "a@x.com")
            (some "active"))
        = .error (.attributeError "name") := by
  refine ⟨by simp, by simp, rfl⟩

/-- C9 amended: the builder fails exactly when the snapshot lacks one of the
five attributes it reads — id, updated-at, name, email, status — and on any
snapshot carrying all five it returns a complete envelope populated from the
snapshot, never a partial one. -/
theorem build_fails_iff_any_field_missing :
    ∀ (fid et : String) (s : CustomerSnapshot),
      ((build_customer_event fid et s).isOk = true
        ↔ (s.id ≠ none ∧ s.updated_at ≠ none ∧ s.name ≠ none
            ∧ s.email ≠ none ∧ s.status ≠ none))
      ∧ (∀ env : Envelope, build_customer_event fid et s = .ok env →
           s.id = some env.entity_id
           ∧ s.updated_at.map isoUTC = some env.occurred_at
           ∧ s.name = some env.payload_name
           ∧ s.email = some env.payload_email
           ∧ s.status = some env.payload_status
           ∧ env.event_id = fid ∧ env.event_type = et
           ∧ env.entity_type = "customer" ∧ env.source = "internal-system"
           ∧ env.schema_version = 1) := by
  intro fid et s
  obtain ⟨i, u, n, em, st⟩ := s
  cases i <;> cases u <;> cases n <;> cases em <;> cases st <;>
    constructor <;>
    simp [build_customer_event, Except.isOk, Except.toBool]

/-- Witness for C9 amended at a concrete full snapshot. -/
theorem build_fails_iff_any_field_missing_witness :
    (CustomerSnapshot.mk (some "c1") (some 5) (some "Alice") (some "a@x.com")
        (some "active")).id
      = some (Envelope.mk "f1"
          (uuid5 IDEMPOTENCY_NAMESPACE ("record.created" ++ ":customer:" ++ "c1"))
          "record.created" (isoUTC 5) "internal-system" "customer" "c1" "Alice"
          "a@x.com" "active" 1).entity_id
    ∧ (build_customer_event "f1" "record.created"
          (CustomerSnapshot.mk (some "c1") (some 5) (some "Alice")
            (some "a@x.com") (some "active"))).isOk = true :=
  ⟨((build_fails_iff_any_field_missing "f1" "record.created"
      (CustomerSnapshot.mk (some "c1") (some 5) (some "Alice") (some "a@x.com")
        (some "active"))).2
      (Envelope.mk "f1"
        (uuid5 IDEMPOTENCY_NAMESPACE ("record.created" ++ ":customer:" ++ "c1"))
        "record.created" (isoUTC 5) "internal-system" "customer" "c1" "Alice"
        "a@x.com" "active" 1) rfl).1,
   (build_fails_iff_any_field_missing "f1" "record.created"
      (CustomerSnapshot.mk (some "c1") (some 5) (some "Alice") (some "a@x.com")
        (some "active"))).1.mpr (by simp)⟩

/-- C5: the idempotency_key of a built event is a pure deterministic
function of (event_type, entity.type, entity.id): two successful builds with
the same event type and entity id agree on the key whatever the fresh
event_id, payload fields and timestamp are; the key is exactly the
name-based UUID of event_type ++ ":customer:" ++ id under the fixed
namespace (and entity.type is the constant "customer"); and for entity ids
free of colons — str(uuid) values always are — any change to the event type
or the entity id changes the key. -/
theorem event_idempotency_key_contract :
    (∀ (fid₁ fid₂ et : String) (s₁ s₂ : CustomerSnapshot) (env₁ env₂ : Envelope),
       build_customer_event fid₁ et s₁ = .ok env₁ →
       build_customer_event fid₂ et s₂ = .ok env₂ →
       s₁.id = s₂.id →
       env₁.idempotency_key = env₂.idempotency_key)
    ∧ (∀ (fid et cid : String) (s : CustomerSnapshot) (env : Envelope),
       build_customer_event fid et s = .ok env →
       s.id = some cid →
       env.idempotency_key = uuid5 IDEMPOTENCY_NAMESPACE (et ++ ":customer:" ++ cid)
       ∧ env.entity_type = "customer")
    ∧ (∀ (fid₁ fid₂ et₁ et₂ cid₁ cid₂ : String) (s₁ s₂ : CustomerSnapshot)
         (env₁ env₂ : Envelope),
       build_customer_event fid₁ et₁ s₁ = .ok env₁ →
       build_customer_event fid₂ et₂ s₂ = .ok env₂ →
       s₁.id = some cid₁ → s₂.id = some cid₂ →
       (':' : Char) ∉ cid₁.data → (':' : Char) ∉ cid₂.data →
       (et₁ ≠ et₂ ∨ cid₁ ≠ cid₂) →
       env₁.idempotency_key ≠ env₂.idempotency_key) := by
  refine ⟨?_, ?_, ?_⟩
  · intro fid₁ fid₂ et s₁ s₂ env₁ env₂ h₁ h₂ hid
    obtain ⟨c₁, hc₁, hk₁, _, _⟩ := build_ok_fields fid₁ et s₁ env₁ h₁
    obtain ⟨c₂, hc₂, hk₂, _, _⟩ := build_ok_fields fid₂ et s₂ env₂ h₂
    rw [hc₁, hc₂] at hid
    injection hid with hc
    rw [hk₁, hk₂, hc]
  · intro fid et cid s env h hs
    obtain ⟨c, hc, hk, hty, _⟩ := build_ok_fields fid et s env h
    rw [hc] at hs
    injection hs with hs
    subst hs
    exact ⟨hk, hty⟩
  · intro fid₁ fid₂ et₁ et₂ cid₁ cid₂ s₁ s₂ env₁ env₂ h₁ h₂ hs₁ hs₂ hf₁ hf₂ hne heq
    obtain ⟨c₁, hc₁, hk₁, _, _⟩ := build_ok_fields fid₁ et₁ s₁ env₁ h₁
    obtain ⟨c₂, hc₂, hk₂, _, _⟩ := build_ok_fields fid₂ et₂ s₂ env₂ h₂
    rw [hc₁] at hs₁
    injection hs₁ with hs₁
    subst hs₁
    rw [hc₂] at hs₂
    injection hs₂ with hs₂
    subst hs₂
    rw [hk₁, hk₂] at heq
    obtain ⟨he, hc⟩ := idem_name_inj et₁ et₂ _ _ hf₁ hf₂
      (uuid5_name_inj IDEMPOTENCY_NAMESPACE _ _ heq)
    rcases hne with h | h
    · exact h he
    · exact h hc

/-- Witness for C5 at concrete inputs: two builds of record.created for
entity c1 with different event ids, payloads and timestamps share the key;
record.created versus record.updated for the same entity differ; two
entities c1 and c2 under the same event type differ. -/
theorem event_idempotency_key_contract_witness :
    (Envelope.mk "f1"
        (uuid5 IDEMPOTENCY_NAMESPACE ("record.created" ++ ":customer:" ++ "c1"))
        "record.created" (isoUTC 0) "internal-system" "customer" "c1" "A"
        "a@x.com" "active" 1).idempotency_key
      = (Envelope.mk "f2"
          (uuid5 IDEMPOTENCY_NAMESPACE ("record.created" ++ ":customer:" ++ "c1"))
          "record.created" (isoUTC 9) "internal-system" "customer" "c1" "B"
          "b@x.com" "inactive" 1).idempotency_key
    ∧ (Envelope.mk "f1"
        (uuid5 IDEMPOTENCY_NAMESPACE ("record.created" ++ ":customer:" ++ "c1"))
        "record.created" (isoUTC 0) "internal-system" "customer" "c1" "A"
        "a@x.com" "active" 1).idempotency_key
      ≠ (Envelope.mk "f3"
          (uuid5 IDEMPOTENCY_NAMESPACE ("record.updated" ++ ":customer:" ++ "c1"))
          "record.updated" (isoUTC 0) "internal-system" "customer" "c1" "A"
          "a@x.com" "active" 1).idempotency_key
    ∧ (Envelope.mk "f1"
        (uuid5 IDEMPOTENCY_NAMESPACE ("record.created" ++ ":customer:" ++ "c1"))
        "record.created" (isoUTC 0) "internal-system" "customer" "c1" "A"
        "a@x.com" "active" 1).idempotency_key
      ≠ (Envelope.mk "f4"
          (uuid5 IDEMPOTENCY_NAMESPACE ("record.created" ++ ":customer:" ++ "c2"))
          "record.created" (isoUTC 0) "internal-system" "customer" "c2" "A"
          "a@x.com" "active" 1).idempotency_key :=
  ⟨event_idempotency_key_contract.1 "f1" "f2" "record.created"
      ⟨some "c1", some 0, some "A", some "a@x.com", some "active"⟩
      ⟨some "c1", some 9, some "B", some "b@x.com", some "inactive"⟩
      _ _ rfl rfl rfl,
   event_idempotency_key_contract.2.2 "f1" "f3" "record.created" "record.updated"
      "c1" "c1"
      ⟨some "c1", some 0, some "A", some "a@x.com", some "active"⟩
      ⟨some "c1", some 0, some "A", some "a@x.com", some "active"⟩
      _ _ rfl rfl rfl rfl (by decide) (by decide) (Or.inl (by decide)),
   event_idempotency_key_contract.2.2 "f1" "f4" "record.created" "record.created"
      "c1" "c2"
      ⟨some "c1", some 0, some "A", some "a@x.com", some "active"⟩
      ⟨some "c2", some 0, some "A", some "a@x.com", some "active"⟩
      _ _ rfl rfl rfl rfl (by decide) (by decide) (Or.inr (by decide))⟩

end OutreachSync
